import Mathlib

/-!
Shallow embedding of the AMP XHR service (src/service/xhr-impl.js): the
request dispatch and CORS-verification pipeline of the `Xhr` class.

The class methods `fetch_`, `fetchAmpCors_`, `fetchJson`, `fetchText`,
`fetch` and `sendSignal` are translated directly from the source.  The
helpers imported from src/utils/xhr-utils.js and src/url.js are not part
of the given sources, so they are modelled from the specification
(sections 4.1, 4.2, 4.4 and 6 of spec.md); each such definition carries a
doc comment starting with: Modelled from the spec.

Promises are modelled as `Except`: a resolved promise is `Except.ok`, a
rejected one is `Except.error`.  The JS statement
  promise.then(onFulfilled, onRejected)
attaches `onRejected` only to the rejection of `promise` itself; an error
raised inside `onFulfilled` is NOT seen by `onRejected`.  The embedding of
`fetchAmpCors_` below reflects this exactly.

In-place mutation of the `init` object (line 91 of the source mutates
`init.body`) is modelled by returning the final state of the object in
the dispatch result (`DispatchResult.finalInit`).
-/

/-- Request or response headers: an ordered name to value mapping. -/
abbrev HeaderList := List (String × String)

/-- Request body values, distinguishing a FormDataWrapper from the native
form data it wraps (src/form-data-wrapper.js collaborator, spec section 6). -/
inductive Body where
  | empty
  | formDataWrapper (data : String)
  | formData (data : String)
  | other (s : String)
deriving DecidableEq, Repr

/-- Modelled from the spec: `isFormDataWrapper` from src/form-data-wrapper.js
(not under src/), the collaborator test isWrapped(body). -/
def isFormDataWrapper : Body → Bool
  | Body.formDataWrapper _ => true
  | _ => false

/-- Modelled from the spec: `getFormData` of the form-data wrapper
collaborator, unwrap(body) to the native form data representation. -/
def Body.getFormData : Body → Body
  | Body.formDataWrapper d => Body.formData d
  | b => b

/-- A URL, modelled structurally: origin (scheme, host, port), path, and
query parameters.  The source passes URLs as strings; the structured form
embeds exactly the fields the URL utilities of src/url.js expose. -/
structure Url where
  origin : String
  path : String := ""
  params : List (String × String) := []
deriving DecidableEq, Repr

/-- Modelled from the spec: `parseUrlDeprecated` from src/url.js (not under
src/), parse(url) returning a record with an origin field; on the
structured URL it is the identity. -/
def parseUrlDeprecated (url : Url) : Url := url

/-- The FetchInitDef options object of the source.  `ampCors := some false`
disables the AMP source origin check (source lines 109 to 113). -/
structure FetchInit where
  method : Option String := Option.none
  headers : HeaderList := []
  body : Body := Body.empty
  credentials : Option String := Option.none
  responseType : Option String := Option.none
  ampCors : Option Bool := Option.none
deriving DecidableEq, Repr

/-- A fetch response: status, headers and a body accessor (spec section 3). -/
structure Response where
  status : Nat
  headers : HeaderList := []
  body : String := ""
deriving DecidableEq, Repr

/-- Ok is derived from the status: the conventional success range. -/
def Response.ok (r : Response) : Bool :=
  decide (200 ≤ r.status) && decide (r.status ≤ 299)

/-- Errors observable by a caller of the pipeline.  `wrapped` is the
user-facing expected error built by user().createExpectedError at source
lines 127 to 128: it carries the category tag, the target origin and the
underlying message. -/
inductive XhrError where
  | corsVerificationFailed (message : String)
  | httpError (message : String) (response : Response)
  | wrapped (category : String) (targetOrigin : String) (message : String)
deriving DecidableEq, Repr

/-- Whether an error is the uniform user-facing wrapped category. -/
def XhrError.isWrapped : XhrError → Bool
  | XhrError.wrapped _ _ _ => true
  | _ => false

/-- The environment of a client: the window and the external collaborators
of spec section 6.  `winFetch` is this.win.fetch (absent in environments
without a native transport), `fetchPolyfill` the fallback transport,
`interceptor` the viewer interception collaborator.  A transport failure
is a rejection carrying a message string. -/
structure Env where
  origin : String
  isSingleDoc : Bool
  winFetch : Option (Url → FetchInit → Except String Response)
  fetchPolyfill : Url → FetchInit → Except String Response
  interceptor : Url → FetchInit → Option Response

/-- Modelled from the spec: `getViewerInterceptResponse` from
src/utils/xhr-utils.js (not under src/).  Per spec section 6 the
interception collaborator is consulted only when the environment is a
single addressable document, i.e. only when the ampdoc is non-null; with a
null ampdoc no response is supplied. -/
def getViewerInterceptResponse (env : Env) (ampdocSingle : Option Unit)
    (input : Url) (init : FetchInit) : Option Response :=
  match ampdocSingle with
  | Option.none => Option.none
  | Option.some _ => env.interceptor input init

/-- Modelled from the spec: `setupInput` from src/utils/xhr-utils.js (not
under src/).  Per spec section 4.2 the Origin Tagger appends a single
query parameter carrying the origin token, unless the URL already targets
the calling origin or CORS mode is disabled; the origin of the URL is
never changed. -/
def setupInput (env : Env) (input : Url) (init : FetchInit) : Url :=
  if init.ampCors = Option.some false then input
  else if input.origin = env.origin then input
  else { input with params := input.params ++ [("__amp_source_origin", env.origin)] }

/-- Modelled from the spec: `setupAMPCors` from src/utils/xhr-utils.js (not
under src/).  Spec section 4.2 specifies no change to the init options
beyond the URL rewriting done by setupInput, so this step returns the
options unchanged. -/
def setupAMPCors (_env : Env) (_input : Url) (init : FetchInit) : FetchInit :=
  init

/-- Modelled from the spec: `setupInit` from src/utils/xhr-utils.js (not
under src/).  Per spec section 4.1 the Request Normalizer completes a
possibly partial options object: the method defaults to GET and, when an
accept content type is requested, the Accept header is forced to it. -/
def setupInit (opt_init : Option FetchInit) (opt_accept : Option String) : FetchInit :=
  let init := opt_init.getD {}
  let init := match init.method with
    | Option.none => { init with method := Option.some "GET" }
    | Option.some _ => init
  match opt_accept with
  | Option.some accept =>
      { init with headers := ("Accept", accept) :: init.headers.filter (fun h => h.1 ≠ "Accept") }
  | Option.none => init

/-- Modelled from the spec: `setupJsonFetchInit` from src/utils/xhr-utils.js
(not under src/).  Per spec section 4.1 a JSON-oriented fetch forces
Accept to application/json and, when a body is present, serializes it and
sets Content-Type to application/json unless already set. -/
def setupJsonFetchInit (opt_init : Option FetchInit) : FetchInit :=
  let init := setupInit opt_init (Option.some "application/json")
  match init.body with
  | Body.empty => init
  | Body.other s =>
      if (init.headers.lookup "Content-Type").isSome then init
      else { init with body := Body.other s,
                       headers := init.headers ++ [("Content-Type", "application/json")] }
  | b => { init with body := b }

/-- Message of the CORS verification error for a missing origin header. -/
def corsMissingHeaderMsg : String :=
  "Response must contain the AMP-Access-Control-Allow-Source-Origin header"

/-- Message of the CORS verification error for a mismatched origin header. -/
def corsMismatchMsg : String :=
  "Returned AMP-Access-Control-Allow-Source-Origin is not equal to the current source origin"

/-- Modelled from the spec: `verifyAmpCORSHeaders` from
src/utils/xhr-utils.js (not under src/).  Per spec section 4.4 the origin
check runs only when CORS mode is enabled: the response must carry a
header asserting that the responding origin allows the calling origin
token; absence or mismatch fails with a CORS verification error.  The
header name is the one named at source line 108. -/
def verifyAmpCORSHeaders (env : Env) (response : Response) (init : FetchInit) :
    Except XhrError Response :=
  if init.ampCors = Option.some false then Except.ok response
  else
    match response.headers.lookup "AMP-Access-Control-Allow-Source-Origin" with
    | Option.none =>
        Except.error (XhrError.corsVerificationFailed corsMissingHeaderMsg)
    | Option.some allowed =>
        if allowed = env.origin then Except.ok response
        else Except.error (XhrError.corsVerificationFailed corsMismatchMsg)

/-- Modelled from the spec: `assertSuccess` from src/utils/xhr-utils.js (not
under src/).  Per spec section 4.4 the status check requires the status to
fall in the conventional success range; otherwise it fails with an HTTP
error that carries the response for caller inspection.  Its call signature
in the source (lines 173 and 189) takes only the response. -/
def assertSuccess (response : Response) : Except XhrError Response :=
  if response.ok then Except.ok response
  else Except.error (XhrError.httpError "HTTP error" response)

/-- Which path of the Dispatch Selector produced the outcome. -/
inductive TransportKind where
  | intercepted
  | native
  | fallback
deriving DecidableEq, Repr

/-- The outcome of `fetch_`: the selected path, the settled transport or
interceptor promise, and the final state of the init object (the source
mutates init.body in place at line 91). -/
structure DispatchResult where
  kind : TransportKind
  result : Except String Response
  finalInit : FetchInit
deriving Repr

/-- The Xhr service instance: the window environment plus the ampdoc
reference computed once in the constructor (source lines 55 to 70). -/
structure Xhr where
  env : Env
  ampdocSingle_ : Option Unit

/-- The constructor (source lines 55 to 70): ampdocSingle_ is the ampdoc
when the ampdoc service reports a single document, and null otherwise. -/
def Xhr.constructor (env : Env) : Xhr :=
  { env := env
  , ampdocSingle_ := if env.isSingleDoc then Option.some () else Option.none }

/-- The in-place body mutation of source lines 90 to 92: when init.body is
a FormDataWrapper, replace it by the unwrapped native form data. -/
def unwrapFormData (init : FetchInit) : FetchInit :=
  if isFormDataWrapper init.body
    then { init with body := init.body.getFormData }
    else init

/-- Translation of Xhr.fetch_ (source lines 81 to 102): consult the viewer
interceptor; on fallthrough unwrap a FormDataWrapper body in place, then
pick the polyfill transport for responseType document, else the native
transport when the window provides one, else the polyfill. -/
def Xhr.fetch_ (x : Xhr) (input : Url) (init : FetchInit) : DispatchResult :=
  match getViewerInterceptResponse x.env x.ampdocSingle_ input init with
  | Option.some interceptorResponse =>
      { kind := TransportKind.intercepted
      , result := Except.ok interceptorResponse
      , finalInit := init }
  | Option.none =>
      if (unwrapFormData init).responseType = Option.some "document" then
        { kind := TransportKind.fallback
        , result := x.env.fetchPolyfill input (unwrapFormData init)
        , finalInit := unwrapFormData init }
      else
        match x.env.winFetch with
        | Option.some nativeFetch =>
            { kind := TransportKind.native
            , result := nativeFetch input (unwrapFormData init)
            , finalInit := unwrapFormData init }
        | Option.none =>
            { kind := TransportKind.fallback
            , result := x.env.fetchPolyfill input (unwrapFormData init)
            , finalInit := unwrapFormData init }

/-- The rejection handler of fetchAmpCors_ (source lines 125 to 128): wrap
the reason into the user-facing expected error of category XHR, carrying
the target origin of the input URL and the underlying message. -/
def xhrWrapError (input : Url) (reasonMessage : String) : XhrError :=
  XhrError.wrapped "XHR" (parseUrlDeprecated input).origin reasonMessage

/-- Translation of Xhr.fetchAmpCors_ (source lines 120 to 130): rewrite the
input through setupInput, rebind init through setupAMPCors, dispatch, then
then(onFulfilled, onRejected): a fulfilled dispatch is verified (the init
object passed to the verifier is the same, possibly mutated, object, hence
finalInit), a rejected dispatch is wrapped.  An error raised by the
verifier itself is not seen by the rejection handler. -/
def Xhr.fetchAmpCors_ (x : Xhr) (input : Url) (init : FetchInit := {}) :
    Except XhrError Response :=
  let input2 := setupInput x.env input init
  let init2 := setupAMPCors x.env input2 init
  let d := x.fetch_ input2 init2
  match d.result with
  | Except.ok response => verifyAmpCORSHeaders x.env response d.finalInit
  | Except.error reason => Except.error (xhrWrapError input2 reason)

/-- Translation of Xhr.fetch (source lines 170 to 174). -/
def Xhr.fetch (x : Xhr) (input : Url) (opt_init : Option FetchInit) :
    Except XhrError Response :=
  let init := setupInit opt_init Option.none
  (x.fetchAmpCors_ input init).bind assertSuccess

/-- Translation of Xhr.fetchJson (source lines 145 to 147).  The parameter
opt_allowFailure appears in the source signature and is documented at line
142 but is not used by the body. -/
def Xhr.fetchJson (x : Xhr) (input : Url) (opt_init : Option FetchInit)
    (opt_allowFailure : Bool) : Except XhrError Response :=
  let _ := opt_allowFailure
  x.fetch input (Option.some (setupJsonFetchInit opt_init))

/-- Translation of Xhr.fetchText (source lines 161 to 163). -/
def Xhr.fetchText (x : Xhr) (input : Url) (opt_init : Option FetchInit) :
    Except XhrError Response :=
  x.fetch input (Option.some (setupInit opt_init (Option.some "text/plain")))

/-- Translation of Xhr.sendSignal (source lines 187 to 190): fetchAmpCors_
on the given options (defaulted to the empty options when absent),
followed by the success assertion. -/
def Xhr.sendSignal (x : Xhr) (input : Url) (opt_init : Option FetchInit) :
    Except XhrError Response :=
  (x.fetchAmpCors_ input (opt_init.getD {})).bind assertSuccess

/-! Concrete fixtures used by witnesses and counterexamples. -/

/-- A 200 response carrying a source-origin header allowing the base
environment origin. -/
def okCorsResp : Response :=
  { status := 200
  , headers := [("AMP-Access-Control-Allow-Source-Origin", "https://cache.example")] }

/-- A 200 response with no source-origin header. -/
def respNoHeader : Response := { status := 200 }

/-- A 500 response carrying a valid source-origin header. -/
def resp500 : Response :=
  { status := 500
  , headers := [("AMP-Access-Control-Allow-Source-Origin", "https://cache.example")] }

/-- Base environment: single document, native fetch present and returning a
valid CORS 200, no interception. -/
def envBase : Env :=
  { origin := "https://cache.example"
  , isSingleDoc := true
  , winFetch := Option.some (fun _ _ => Except.ok okCorsResp)
  , fetchPolyfill := fun _ _ => Except.ok okCorsResp
  , interceptor := fun _ _ => Option.none }

/-- Environment whose native transport returns a 500 with a valid origin
header. -/
def env500 : Env :=
  { envBase with winFetch := Option.some (fun _ _ => Except.ok resp500) }

/-- Environment whose native transport returns a 200 lacking the origin
header. -/
def envNoHeader : Env :=
  { envBase with winFetch := Option.some (fun _ _ => Except.ok respNoHeader) }

/-- Environment whose native transport rejects with a network failure. -/
def envFail : Env :=
  { envBase with winFetch := Option.some (fun _ _ => Except.error "network failure") }

/-- Environment whose interceptor supplies the header-less 200 response. -/
def envIntercept : Env :=
  { envBase with interceptor := fun _ _ => Option.some respNoHeader }

/-- Environment that is not a single addressable document; its interceptor
would supply a response if it were ever consulted. -/
def envNonSingle : Env :=
  { envBase with
    isSingleDoc := false,
    interceptor := fun _ _ => Option.some okCorsResp }

/-- A cross-origin request URL. -/
def urlData : Url := { origin := "https://example.com", path := "/data.json" }

/-- The same request URL with a sensitive query parameter. -/
def urlToken : Url :=
  { origin := "https://example.com", path := "/data.json"
  , params := [("token", "secret")] }

/-- Options carrying a FormDataWrapper body. -/
def initFD : FetchInit := { body := Body.formDataWrapper "payload" }

/-- Options requesting a document response. -/
def initDoc : FetchInit := { responseType := Option.some "document" }

/-- Options that are a fixed point of setupInit. -/
def initGET : FetchInit := { method := Option.some "GET" }

/-! Helper lemmas about the pipeline. -/

/-- The Origin Tagger never changes the origin of the URL. -/
theorem setupInput_origin (env : Env) (input : Url) (init : FetchInit) :
    (setupInput env input init).origin = input.origin := by
  unfold setupInput
  split
  · rfl
  · split <;> rfl

/-- Unwrapping the body leaves the responseType field unchanged. -/
theorem unwrapFormData_responseType (init : FetchInit) :
    (unwrapFormData init).responseType = init.responseType := by
  unfold unwrapFormData
  split <;> rfl

/-- Unwrapping the body leaves the ampCors field unchanged. -/
theorem unwrapFormData_ampCors (init : FetchInit) :
    (unwrapFormData init).ampCors = init.ampCors := by
  unfold unwrapFormData
  split <;> rfl

/-- Whatever path the Dispatch Selector takes, the final state of the init
object has the ampCors field of the given init. -/
theorem fetch_finalInit_ampCors (x : Xhr) (input : Url) (init : FetchInit) :
    (x.fetch_ input init).finalInit.ampCors = init.ampCors := by
  rcases hI : getViewerInterceptResponse x.env x.ampdocSingle_ input init with _ | r
  · simp only [Xhr.fetch_, hI]
    split
    · exact unwrapFormData_ampCors init
    · cases x.env.winFetch <;> exact unwrapFormData_ampCors init
  · simp [Xhr.fetch_, hI]

/-- The origin verification depends on the environment only through its
origin and on the options only through the ampCors field. -/
theorem verifyAmpCORSHeaders_congr (e1 e2 : Env) (r : Response) (a b : FetchInit)
    (ho : e1.origin = e2.origin) (hc : a.ampCors = b.ampCors) :
    verifyAmpCORSHeaders e1 r a = verifyAmpCORSHeaders e2 r b := by
  unfold verifyAmpCORSHeaders
  rw [hc, ho]

/-- When the dispatch promise fulfills with a response, fetchAmpCors_
returns the verification of that response against the final init state. -/
theorem fetchAmpCors_of_ok (x : Xhr) (input : Url) (init : FetchInit) (r : Response)
    (h : (x.fetch_ (setupInput x.env input init)
            (setupAMPCors x.env (setupInput x.env input init) init)).result
          = Except.ok r) :
    x.fetchAmpCors_ input init
      = verifyAmpCORSHeaders x.env r
          (x.fetch_ (setupInput x.env input init)
            (setupAMPCors x.env (setupInput x.env input init) init)).finalInit := by
  simp only [Xhr.fetchAmpCors_]
  rw [h]

/-- When the dispatch promise rejects, fetchAmpCors_ rejects with the
user-facing wrapped error built from the origin of the URL. -/
theorem fetchAmpCors_of_error (x : Xhr) (input : Url) (init : FetchInit) (reason : String)
    (h : (x.fetch_ (setupInput x.env input init)
            (setupAMPCors x.env (setupInput x.env input init) init)).result
          = Except.error reason) :
    x.fetchAmpCors_ input init
      = Except.error (XhrError.wrapped "XHR" input.origin reason) := by
  simp only [Xhr.fetchAmpCors_]
  rw [h]
  simp [xhrWrapError, parseUrlDeprecated, setupInput_origin]

/-! Claim theorems. -/

/-- Claim C1 (code bug): the source signature of fetchJson declares
opt_allowFailure and its doc comment (line 142) says it allows non-2XX
status codes to fulfill, but the body never uses it: a 500 response with a
valid origin header and allowFailure set to true still rejects with the
HTTP error raised by assertSuccess, and the outcome is identical with
allowFailure false. -/
theorem c1_fetchJson_ignores_allowFailure :
    (Xhr.constructor env500).fetchJson urlData Option.none true
      = Except.error (XhrError.httpError "HTTP error" resp500) ∧
    (Xhr.constructor env500).fetchJson urlData Option.none true
      = (Xhr.constructor env500).fetchJson urlData Option.none false :=
  ⟨rfl, rfl⟩

/-- Claim C2 counterexample: a CORS-verification failure is not re-wrapped
at the outer boundary.  The rejection handler at source lines 125 to 129
is the second argument of the same then call whose first argument runs the
verifier, so an error raised by the verifier bypasses it: the caller of
fetch observes the raw corsVerificationFailed error, not the wrapped XHR
category. -/
theorem c2_cors_failure_reaches_caller_unwrapped :
    (Xhr.constructor envNoHeader).fetch urlData Option.none
      = Except.error (XhrError.corsVerificationFailed corsMissingHeaderMsg) ∧
    (XhrError.corsVerificationFailed corsMissingHeaderMsg).isWrapped = false :=
  ⟨rfl, rfl⟩

/-- Claim C2 (amended): every transport-stage rejection is re-wrapped
exactly once at the fetchAmpCors_ boundary into the uniform XHR expected
error carrying the target origin and the underlying message; CORS
verification and status failures are not re-wrapped. -/
theorem c2_transport_rejection_wrapped_once (x : Xhr) (input : Url)
    (init : FetchInit) (reason : String)
    (h : (x.fetch_ (setupInput x.env input init)
            (setupAMPCors x.env (setupInput x.env input init) init)).result
          = Except.error reason) :
    x.fetchAmpCors_ input init
      = Except.error (XhrError.wrapped "XHR" input.origin reason) :=
  fetchAmpCors_of_error x input init reason h

/-- Witness for the amended claim C2: a network failure on the native
transport surfaces as the wrapped XHR error carrying the target origin. -/
theorem c2_wrap_witness :
    ((Xhr.constructor envFail).fetch_
        (setupInput (Xhr.constructor envFail).env urlData {})
        (setupAMPCors (Xhr.constructor envFail).env
          (setupInput (Xhr.constructor envFail).env urlData {}) {})).result
      = Except.error "network failure" ∧
    (Xhr.constructor envFail).fetchAmpCors_ urlData {}
      = Except.error (XhrError.wrapped "XHR" urlData.origin "network failure") :=
  ⟨rfl, c2_transport_rejection_wrapped_once (Xhr.constructor envFail) urlData {}
      "network failure" rfl⟩

/-- Claim C3: a request with responseType document that is not intercepted
is dispatched to the fallback transport, with the native transport never
selected, whatever the winFetch capability of the environment. -/
theorem c3_document_always_fallback (x : Xhr) (input : Url) (init : FetchInit)
    (hni : getViewerInterceptResponse x.env x.ampdocSingle_ input init = Option.none)
    (hdoc : init.responseType = Option.some "document") :
    (x.fetch_ input init).kind = TransportKind.fallback ∧
    (x.fetch_ input init).result = x.env.fetchPolyfill input (unwrapFormData init) := by
  have hc : (unwrapFormData init).responseType = Option.some "document" := by
    rw [unwrapFormData_responseType, hdoc]
  simp [Xhr.fetch_, hni, hc]

/-- Witness for claim C3: in an environment that does provide a native
fetch, a document-mode request still uses the fallback transport. -/
theorem c3_witness :
    getViewerInterceptResponse (Xhr.constructor envBase).env
        (Xhr.constructor envBase).ampdocSingle_ urlData initDoc = Option.none ∧
    initDoc.responseType = Option.some "document" ∧
    ((Xhr.constructor envBase).fetch_ urlData initDoc).kind = TransportKind.fallback :=
  ⟨rfl, rfl,
    (c3_document_always_fallback (Xhr.constructor envBase) urlData initDoc rfl rfl).1⟩

/-- Claim C4: CORS header verification is applied identically to every
fulfilled dispatch outcome.  The result of fetchAmpCors_ is always the
verification of the dispatched response, and two clients with the same
calling origin that obtain the same response, one from the interception
collaborator and one from a transport, observe exactly the same verified
outcome: verification is never skipped because the response was
intercepted. -/
theorem c4_verification_uniform (e1 e2 : Env) (input : Url) (init : FetchInit)
    (r : Response) (ho : e1.origin = e2.origin)
    (h1 : ((Xhr.constructor e1).fetch_ (setupInput e1 input init)
            (setupAMPCors e1 (setupInput e1 input init) init)).result = Except.ok r)
    (h2 : ((Xhr.constructor e2).fetch_ (setupInput e2 input init)
            (setupAMPCors e2 (setupInput e2 input init) init)).result = Except.ok r) :
    (Xhr.constructor e1).fetchAmpCors_ input init
      = verifyAmpCORSHeaders e1 r
          ((Xhr.constructor e1).fetch_ (setupInput e1 input init)
            (setupAMPCors e1 (setupInput e1 input init) init)).finalInit ∧
    (Xhr.constructor e1).fetchAmpCors_ input init
      = (Xhr.constructor e2).fetchAmpCors_ input init := by
  have A := fetchAmpCors_of_ok (Xhr.constructor e1) input init r h1
  have B := fetchAmpCors_of_ok (Xhr.constructor e2) input init r h2
  refine ⟨A, ?_⟩
  rw [A, B]
  exact verifyAmpCORSHeaders_congr e1 e2 r _ _ ho
    (by simp only [fetch_finalInit_ampCors, setupAMPCors])

/-- Witness for claim C4: an intercepting client and a transporting client
that both produce the header-less 200 response observe the same rejected
verification outcome. -/
theorem c4_witness :
    envIntercept.origin = envNoHeader.origin ∧
    (Xhr.constructor envIntercept).fetchAmpCors_ urlData {}
      = (Xhr.constructor envNoHeader).fetchAmpCors_ urlData {} :=
  ⟨rfl, (c4_verification_uniform envIntercept envNoHeader urlData {} respNoHeader
      rfl rfl rfl).2⟩

/-- Claim C5 counterexample: the init object is not immutable inside the
dispatch pipeline.  For a non-intercepted request whose body is a
FormDataWrapper, source line 91 reassigns init.body, so the final state of
the init object differs from the one handed to the Dispatch Selector. -/
theorem c5_init_mutated_counterexample :
    ((Xhr.constructor envBase).fetch_ urlData initFD).finalInit ≠ initFD := by
  decide

/-- Claim C5 (amended): the dispatch pipeline modifies the init object only
in its body field, and only to unwrap a FormDataWrapper body into native
form data on a non-intercepted request; every other field is unchanged. -/
theorem c5_init_mutation_only_body_unwrap (x : Xhr) (input : Url) (init : FetchInit) :
    (x.fetch_ input init).finalInit = init ∨
    (isFormDataWrapper init.body = true ∧
      (x.fetch_ input init).finalInit = { init with body := init.body.getFormData }) := by
  rcases hI : getViewerInterceptResponse x.env x.ampdocSingle_ input init with _ | r
  · have hfi : (x.fetch_ input init).finalInit = unwrapFormData init := by
      simp only [Xhr.fetch_, hI]
      split
      · rfl
      · cases hw : x.env.winFetch <;> rfl
    by_cases hb : isFormDataWrapper init.body
    · right
      refine ⟨hb, ?_⟩
      rw [hfi]
      simp [unwrapFormData, hb]
    · left
      rw [hfi]
      simp [unwrapFormData, hb]
  · left
    simp [Xhr.fetch_, hI]

/-- Claim C6: the wrapped user-facing error identifies the target only by
its origin.  Two failing requests whose URLs share an origin but differ in
path and query parameters produce literally the same wrapped error, whose
payload is the category tag, the origin and the underlying message. -/
theorem c6_wrapped_error_depends_only_on_origin (x : Xhr) (u1 u2 : Url)
    (init : FetchInit) (reason : String) (ho : u1.origin = u2.origin)
    (h1 : (x.fetch_ (setupInput x.env u1 init)
            (setupAMPCors x.env (setupInput x.env u1 init) init)).result
          = Except.error reason)
    (h2 : (x.fetch_ (setupInput x.env u2 init)
            (setupAMPCors x.env (setupInput x.env u2 init) init)).result
          = Except.error reason) :
    x.fetchAmpCors_ u1 init = Except.error (XhrError.wrapped "XHR" u1.origin reason) ∧
    x.fetchAmpCors_ u1 init = x.fetchAmpCors_ u2 init := by
  have A := fetchAmpCors_of_error x u1 init reason h1
  have B := fetchAmpCors_of_error x u2 init reason h2
  exact ⟨A, by rw [A, B, ho]⟩

/-- Witness for claim C6: a URL carrying a secret token parameter fails
with an error mentioning only the origin, identical to the error of the
token-free URL. -/
theorem c6_witness :
    urlToken.origin = urlData.origin ∧
    (Xhr.constructor envFail).fetchAmpCors_ urlToken {}
      = Except.error (XhrError.wrapped "XHR" urlToken.origin "network failure") ∧
    (Xhr.constructor envFail).fetchAmpCors_ urlToken {}
      = (Xhr.constructor envFail).fetchAmpCors_ urlData {} :=
  ⟨rfl,
    (c6_wrapped_error_depends_only_on_origin (Xhr.constructor envFail) urlToken urlData
      {} "network failure" rfl rfl rfl).1,
    (c6_wrapped_error_depends_only_on_origin (Xhr.constructor envFail) urlToken urlData
      {} "network failure" rfl rfl rfl).2⟩

/-- Claim C7: the single-document capability is computed once in the
constructor; a client built in a non-single-document environment holds a
null ampdoc, the interception collaborator consulted with that null
document never supplies a response, and no dispatch of that client is ever
intercepted. -/
theorem c7_non_single_doc_never_intercepts (env : Env) (h : env.isSingleDoc = false) :
    (Xhr.constructor env).ampdocSingle_ = Option.none ∧
    (∀ input init,
      getViewerInterceptResponse env (Xhr.constructor env).ampdocSingle_ input init
        = Option.none) ∧
    (∀ input init,
      ((Xhr.constructor env).fetch_ input init).kind ≠ TransportKind.intercepted) := by
  have hamp : (Xhr.constructor env).ampdocSingle_ = Option.none := by
    simp [Xhr.constructor, h]
  refine ⟨hamp, ?_, ?_⟩
  · intro input init
    rw [hamp]
    rfl
  · intro input init
    have hni : getViewerInterceptResponse (Xhr.constructor env).env
        (Xhr.constructor env).ampdocSingle_ input init = Option.none := by
      rw [hamp]
      rfl
    simp only [Xhr.fetch_, hni]
    split
    · simp
    · cases hw : (Xhr.constructor env).env.winFetch <;> simp

/-- Witness for claim C7: a non-single-document client whose interceptor
would supply a response still never takes the intercepted path. -/
theorem c7_witness :
    envNonSingle.isSingleDoc = false ∧
    (Xhr.constructor envNonSingle).ampdocSingle_ = Option.none ∧
    ((Xhr.constructor envNonSingle).fetch_ urlData initFD).kind
      ≠ TransportKind.intercepted :=
  ⟨rfl, (c7_non_single_doc_never_intercepts envNonSingle rfl).1,
    (c7_non_single_doc_never_intercepts envNonSingle rfl).2.2 urlData initFD⟩

/-- Claim C8: a non-intercepted request whose responseType is not document
uses the native transport exactly when the window provides one and the
fallback transport otherwise, in both cases on the unwrapped init. -/
theorem c8_transport_selection (x : Xhr) (input : Url) (init : FetchInit)
    (hni : getViewerInterceptResponse x.env x.ampdocSingle_ input init = Option.none)
    (hdoc : init.responseType ≠ Option.some "document") :
    (x.fetch_ input init).kind
      = (if x.env.winFetch.isSome then TransportKind.native else TransportKind.fallback) ∧
    (∀ f, x.env.winFetch = Option.some f →
      (x.fetch_ input init).result = f input (unwrapFormData init)) ∧
    (x.env.winFetch = Option.none →
      (x.fetch_ input init).result = x.env.fetchPolyfill input (unwrapFormData init)) := by
  have hc : ¬ (unwrapFormData init).responseType = Option.some "document" := by
    rw [unwrapFormData_responseType]
    exact hdoc
  refine ⟨?_, ?_, ?_⟩
  · simp only [Xhr.fetch_, hni]
    rw [if_neg hc]
    cases hw : x.env.winFetch <;> rfl
  · intro f hf
    simp only [Xhr.fetch_, hni]
    rw [if_neg hc, hf]
  · intro hf
    simp only [Xhr.fetch_, hni]
    rw [if_neg hc, hf]

/-- Witness for claim C8: with a native transport present, a plain GET
request takes the native path. -/
theorem c8_witness :
    getViewerInterceptResponse (Xhr.constructor envBase).env
        (Xhr.constructor envBase).ampdocSingle_ urlData initGET = Option.none ∧
    initGET.responseType ≠ Option.some "document" ∧
    ((Xhr.constructor envBase).fetch_ urlData initGET).kind
      = (if (Xhr.constructor envBase).env.winFetch.isSome then TransportKind.native
         else TransportKind.fallback) :=
  ⟨rfl, by decide,
    (c8_transport_selection (Xhr.constructor envBase) urlData initGET rfl (by decide)).1⟩

/-- Claim C9: when the interception collaborator supplies a response the
pipeline short-circuits completely: the outcome is the intercepted
response, no transport runs, and the init object, body included, is left
exactly as it was. -/
theorem c9_intercepted_short_circuits (x : Xhr) (input : Url) (init : FetchInit)
    (r : Response)
    (h : getViewerInterceptResponse x.env x.ampdocSingle_ input init = Option.some r) :
    x.fetch_ input init
      = { kind := TransportKind.intercepted
        , result := Except.ok r
        , finalInit := init } := by
  simp [Xhr.fetch_, h]

/-- Witness for claim C9: an intercepted request with a FormDataWrapper
body keeps the wrapper unchanged in the final init state. -/
theorem c9_witness :
    getViewerInterceptResponse (Xhr.constructor envIntercept).env
        (Xhr.constructor envIntercept).ampdocSingle_ urlData initFD
      = Option.some respNoHeader ∧
    (Xhr.constructor envIntercept).fetch_ urlData initFD
      = { kind := TransportKind.intercepted
        , result := Except.ok respNoHeader
        , finalInit := initFD } :=
  ⟨rfl, c9_intercepted_short_circuits (Xhr.constructor envIntercept) urlData initFD
      respNoHeader rfl⟩

/-- Claim C10: on any options object that is a fixed point of the setupInit
normalizer, fetch and sendSignal run the same tag, dispatch and verify
pipeline followed by the same success assertion and return the same
outcome. -/
theorem c10_fetch_sendSignal_agree (x : Xhr) (input : Url) (init : FetchInit)
    (h : setupInit (Option.some init) Option.none = init) :
    x.fetch input (Option.some init) = x.sendSignal input (Option.some init) := by
  simp only [Xhr.fetch, Xhr.sendSignal]
  rw [h]
  rfl

/-- Witness for claim C10: a GET options object is a setupInit fixed point
and fetch and sendSignal agree on it. -/
theorem c10_witness :
    setupInit (Option.some initGET) Option.none = initGET ∧
    (Xhr.constructor envBase).fetch urlData (Option.some initGET)
      = (Xhr.constructor envBase).sendSignal urlData (Option.some initGET) :=
  ⟨rfl, c10_fetch_sendSignal_agree (Xhr.constructor envBase) urlData initGET rfl⟩
